import Mathlib

/-!
Shallow embedding of the pyappkit daemon core (`src/pyappkit/daemon/`):
`tools.py`, `daemon.py`, `worker.py` and `main.py`.

Conventions used throughout:
* The filesystem is a partial map from path to file contents (`FS`).
* Python exceptions surface as `Except PyError`.
* Side effects of a code path (forks, opens, closes, file writes and
  removals, signals sent, process exits) are recorded as a `List Eff`
  in program order.
* Process ids are integers; `os.fork`'s result is modelled as an input
  (`forkResult`), since the embedding does not schedule real processes.
* Wall-clock time is modelled in whole seconds as `Nat`; a predicate
  `Nat → Bool` gives the value of a polled flag at each second.
-/

/-- Python exception kinds that the modelled code can raise. -/
inductive PyError where
  | valueError
  | attributeError
  deriving DecidableEq, Repr

/-- Filesystem: path to file contents, `none` when the file is absent. -/
def FS : Type := String → Option String

/-- Observable side effects of a modelled code path, in program order. -/
inductive Eff where
  | openW (path : String)        -- open(path, "wb") / open(path, "ab") succeeded
  | openR (path : String)        -- open(path) for reading succeeded
  | closeH (path : String)       -- handle for path closed
  | fork                         -- os.fork() / Process.start()
  | writeFile (path : String)    -- file created or overwritten
  | removeFile (path : String)   -- os.remove(path)
  | kill (pid : Int)             -- os.kill(pid, SIGTERM)
  | exitP (code : Int)           -- sys.exit(code)
  | reraise                      -- an exception propagates out
  deriving DecidableEq, Repr

/-- Path of the null device, `os.devnull`. -/
def devnull : String := "/dev/null"

namespace Tools

/-- Whitespace characters stripped by Python's `str.strip()` (ASCII part). -/
def pyIsSpace (c : Char) : Bool :=
  c = ' ' || c = '\t' || c = '\n' || c = '\x0d' || c = '\x0b' || c = '\x0c'

/-- Python `str.strip()`: drop leading and trailing whitespace. -/
def pyStrip (s : String) : String :=
  ((s.toList.dropWhile pyIsSpace).reverse.dropWhile pyIsSpace).reverse.asString

/-- Value of a nonempty digit string, `none` if any char is not a digit. -/
def digitsVal : List Char → Option Nat
  | [] => none
  | [c] => if c.isDigit then some (c.toNat - '0'.toNat) else none
  | c :: cs =>
    if c.isDigit then
      match digitsVal cs with
      | some n => some ((c.toNat - '0'.toNat) * 10 ^ cs.length + n)
      | none => none
    else none

/-- Remove single underscores standing between two digits, as Python's
    `int()` allows; any other underscore makes the literal invalid and is
    left in place (so `digitsVal` rejects it). -/
def dropDigitSeps : List Char → List Char
  | a :: '_' :: b :: rest =>
    if a.isDigit && b.isDigit then a :: dropDigitSeps (b :: rest)
    else a :: '_' :: dropDigitSeps (b :: rest)
  | a :: rest => a :: dropDigitSeps rest
  | [] => []

/-- Python `int(s)` on a decimal string: strip whitespace, accept an
    optional sign followed by digits (with digit-group underscores);
    `none` models the `ValueError` raised on anything else. -/
def pyInt? (s : String) : Option Int :=
  match (pyStrip s).toList with
  | '+' :: rest => (digitsVal (dropDigitSeps rest)).map Int.ofNat
  | '-' :: rest => (digitsVal (dropDigitSeps rest)).map (fun n => -(Int.ofNat n))
  | rest => (digitsVal (dropDigitSeps rest)).map Int.ofNat

/-- Model of `tools.read_int_file` / `main.__read_int_file`:
    `None` when the file is absent, otherwise `int(f.read())`, whose
    parse failure raises `ValueError`. -/
def read_int_file (fs : FS) (filename : String) : Except PyError (Option Int) :=
  match fs filename with
  | none => .ok none
  | some content =>
    match pyInt? content with
    | some n => .ok (some n)
    | none => .error .valueError

/-- Process roles, from `tools.ProcessRole`. -/
inductive ProcessRole where
  | GUARDIAN
  | EXECUTOR
  | WORKER
  deriving DecidableEq, Repr

/-- State of the singleton `tools.SigTermHandler` (`SIG_TERM_HANDLER`).
    `worker_controller` is the shared `Value('b')` content, `none` when
    the attribute is still `None`. -/
structure SigTermHandlerState where
  quit_requested : Bool
  executor_pid : Option Int
  guardian_pid : Option Int
  role : Option ProcessRole
  worker_controller : Option Bool
  guardian_killed : Bool
  executor_killed : Bool
  deriving DecidableEq, Repr

/-- Initial state built by `SigTermHandler.__init__`. -/
def initSigTermHandler : SigTermHandlerState :=
  { quit_requested := false, executor_pid := none, guardian_pid := none,
    role := none, worker_controller := none,
    guardian_killed := false, executor_killed := false }

/-- Model of `tools.safe_kill`: the SIGTERM actually sent (none when the
    pid is `None`; an `OSError` is swallowed and changes nothing). -/
def safe_kill : Option Int → List Eff
  | some p => [.kill p]
  | none => []

/-- Model of `tools.SigTermHandler.handle`: the state after one SIGTERM
    delivery together with the kill signals the handler sends. -/
def handle (s : SigTermHandlerState) : SigTermHandlerState × List Eff :=
  let s1 := { s with quit_requested := true }
  match s1.role with
  | some .GUARDIAN =>
    if s1.executor_killed then (s1, [])
    else ({ s1 with executor_killed := true }, safe_kill s1.executor_pid)
  | some .EXECUTOR =>
    let s2 := match s1.worker_controller with
      | some _ => { s1 with worker_controller := some true }
      | none => s1
    if s2.guardian_killed then (s2, [])
    else ({ s2 with guardian_killed := true }, safe_kill s2.guardian_pid)
  | some .WORKER => (s1, [])
  | none => (s1, [])

/-- Model of `tools.quit_requested`: for a WORKER it reads
    `worker_controller.value` (`none` models the `AttributeError` when
    the controller was never attached); otherwise the local flag. -/
def quit_requested_fn (s : SigTermHandlerState) : Option Bool :=
  match s.role with
  | some .WORKER => s.worker_controller
  | _ => some s.quit_requested

/-- Loop body of `tools.sleep` with the default `step_seconds = 1`.
    `quit k` is the value of `quit_requested()` at elapsed second `k`,
    `d` the requested duration; the result is the elapsed time at which
    the call returns.  The fuel argument only bounds the recursion; the
    loop itself runs until one of its two `return` statements fires. -/
def sleep_go (quit : Nat → Bool) (d : Nat) : Nat → Nat → Nat
  | 0, k => k
  | fuel + 1, k =>
    if quit k then k
    else if d ≤ k then k
    else sleep_go quit d fuel (k + 1)

/-- Model of `tools.sleep seconds` (default step): elapsed seconds at
    which the call returns. -/
def sleep_ret (quit : Nat → Bool) (d : Nat) : Nat :=
  sleep_go quit d (d + 1) 0

end Tools

namespace Main

/-- Loop body of `main.sleep_if` with the default `step = 1`: iterate at
    most `n` more times from elapsed second `k`, returning as soon as
    `condition()` is false; result is the elapsed time at return. -/
def sleep_if_go (cond : Nat → Bool) : Nat → Nat → Nat
  | 0, k => k
  | n + 1, k =>
    if !(cond k) then k
    else sleep_if_go cond n (k + 1)

/-- Model of `main.sleep_if count condition`: elapsed seconds at which
    the call returns. -/
def sleep_if_ret (cond : Nat → Bool) (count : Nat) : Nat :=
  sleep_if_go cond count 0

/-- Enum `main.DaemonRunStatus` — the status type of the CLI host
    `run_daemon`. -/
inductive DaemonRunStatus where
  | LAUNCHED
  | ALREADY_RUNNING
  | REDIR_STDOUT_FAILED
  | REDIR_STDERR_FAILED
  | FORK_FAILED
  deriving DecidableEq, Repr

/-- Enum `main.ExecutorStatus`, with the exit code that `__execute_daemon`
    pairs with `FINISHED`. -/
inductive ExecutorStatus where
  | FORK_FAILED
  | FINISHED (exit_code : Int)
  deriving DecidableEq, Repr

/-- What a host call produces: either a status tuple returned to the
    caller, or (in the forked child, `forkResult = 0`) control continuing
    as the guardian, never returning to the caller. -/
inductive HostOutcome where
  | returned (status : DaemonRunStatus) (extra : Option Int)
  | enteredGuardian
  deriving DecidableEq, Repr

/-- Close effects of `main.__safe_close` on an optional handle
    (closing `None` or catching `OSError` produces nothing). -/
def close_opt : Option String → List Eff
  | some p => [.closeH p]
  | none => []

/-- Model of `main.__safe_close_io`: handles are identified by the path
    they were opened on; `out_f is err_f` holds exactly when the two
    optional handles are equal (both `None`, or the same object opened
    once for a shared stdout/stderr path). -/
def safe_close_io (in_f out_f err_f : Option String) : List Eff :=
  (if out_f = err_f then close_opt out_f
   else close_opt out_f ++ close_opt err_f) ++ close_opt in_f

/-- Result of `open(path, "wb")` under an openability oracle: the handle
    (identified by its path) on success, `none` when `OSError` is raised. -/
def open_wb (openable : String → Bool) (path : String) : Option String :=
  if openable path then some path else none

/-- Host phase of `main.run_daemon` (everything the calling process runs:
    admission check, opening the three redirection targets, fork, and the
    parent's return), with its effect trace.  `forkResult` is the value
    `os.fork()` returns. -/
def run_daemon_host (fs : FS) (openable : String → Bool) (pid_filename : String)
    (stdout_filename stderr_filename : Option String) (forkResult : Int) :
    Except PyError (HostOutcome × List Eff) :=
  match Tools.read_int_file fs pid_filename with
  | .error e => .error e
  | .ok (some pid) => .ok (.returned .ALREADY_RUNNING (some pid), [])
  | .ok none =>
    let so := stdout_filename.getD devnull
    let se := stderr_filename.getD devnull
    -- try-block of opens; on the first OSError the remaining handles stay None
    let opened : Option String × Option String × Option String × List Eff :=
      if so = se then
        match open_wb openable so with
        | none => (none, none, none, [])
        | some h =>
          match open_wb openable devnull with
          | none => (some h, some h, none, [.openW so])
          | some hin => (some h, some h, some hin, [.openW so, .openR devnull])
      else
        match open_wb openable so with
        | none => (none, none, none, [])
        | some h =>
          match open_wb openable se with
          | none => (some h, none, none, [.openW so])
          | some h2 =>
            match open_wb openable devnull with
            | none => (some h, some h2, none, [.openW so, .openW se])
            | some hin => (some h, some h2, some hin, [.openW so, .openW se, .openR devnull])
    match opened with
    | (out_f, err_f, in_f, opens) =>
      if out_f = none then
        .ok (.returned .REDIR_STDOUT_FAILED none, opens ++ safe_close_io in_f out_f err_f)
      else if err_f = none then
        .ok (.returned .REDIR_STDERR_FAILED none, opens ++ safe_close_io in_f out_f err_f)
      else if forkResult < 0 then
        .ok (.returned .FORK_FAILED none, opens ++ [.fork] ++ safe_close_io in_f out_f err_f)
      else if forkResult > 0 then
        .ok (.returned .LAUNCHED (some forkResult), opens ++ [.fork] ++ safe_close_io in_f out_f err_f)
      else
        .ok (.enteredGuardian, opens ++ [.fork])

/-- State of the singleton `main.AppContext` (`__APP_CONTEXT`). -/
structure AppContext where
  quit_requested : Bool
  executor_pid : Option Int
  guardian_pid : Option Int
  is_guardian : Bool
  worker_controller : Option Bool
  guardian_killed : Bool
  executor_killed : Bool
  deriving DecidableEq, Repr

/-- Model of `main.__request_guardian_shutdown` (the guardian's SIGTERM
    handler): resulting context and the kill signals sent. -/
def request_guardian_shutdown (c : AppContext) : AppContext × List Eff :=
  let c1 := { c with quit_requested := true }
  if !c1.executor_killed && c1.executor_pid.isSome then
    ({ c1 with executor_killed := true }, Tools.safe_kill c1.executor_pid)
  else (c1, [])

/-- Model of `main.__request_executor_shutdown` (the executor's SIGTERM
    handler): resulting context and the kill signals sent. -/
def request_executor_shutdown (c : AppContext) : AppContext × List Eff :=
  let c1 := { c with quit_requested := true }
  let c2 := match c1.worker_controller with
    | some _ => { c1 with worker_controller := some true }
    | none => c1
  if !c2.guardian_killed && c2.guardian_pid.isSome then
    ({ c2 with guardian_killed := true }, Tools.safe_kill c2.guardian_pid)
  else (c2, [])

/-- Model of `main.__execute_daemon_with_retry`: `quit n` is the value of
    `__quit_requested()` at the top of iteration `n`; `outcomes` is the
    oracle for the successive results of `__execute_daemon`.  The result
    is `some` of the number of executor launches when the loop breaks,
    `none` when the outcome oracle is exhausted while the loop would run
    on. -/
def execute_daemon_with_retry (quit : Nat → Bool) (restart_interval : Option Nat) :
    List ExecutorStatus → Nat → Option Nat
  | [], n => if quit n then some n else none
  | o :: rest, n =>
    if quit n then some n
    else
      match o with
      | .FORK_FAILED => some (n + 1)
      | .FINISHED c =>
        if restart_interval = none ∨ c = 0 then some (n + 1)
        else execute_daemon_with_retry quit restart_interval rest (n + 1)

/-- Guardian tail of `main.run_daemon`: the loop followed by
    `sys.exit(0)`.  Result: launch count paired with the guardian's exit
    code, `none` when the outcome oracle ran out. -/
def run_daemon_guardian_exit (quit : Nat → Bool) (restart_interval : Option Nat)
    (outcomes : List ExecutorStatus) : Option (Nat × Int) :=
  (execute_daemon_with_retry quit restart_interval outcomes 0).map (fun n => (n, 0))

/-- How the body of `run_daemon`'s final try-block ends in a given
    process: the guardian either completes the supervision loop (and then
    calls `sys.exit(0)`) or an exception escapes the loop; in the
    executor child, the `sys.exit` raised inside `__execute_daemon`
    propagates through this same frame. -/
inductive GuardianBody where
  | loopCompleted
  | loopRaised
  | executorSysExit (code : Int)
  deriving DecidableEq, Repr

/-- Final try/except/finally of `main.run_daemon` (the frame shared by
    guardian and forked executor): effect trace of the body's ending
    followed by the `finally` clause, which removes the pid-file only
    when `__APP_CONTEXT.is_guardian` is still set. -/
def run_daemon_tail (is_guardian : Bool) (pid_filename : String) (b : GuardianBody) :
    List Eff :=
  (match b with
   | .loopCompleted => [.exitP 0]
   | .loopRaised => [.reraise]
   | .executorSysExit c => [.exitP c]) ++
  (if is_guardian then [.removeFile pid_filename] else [])

/-- Value of `__APP_CONTEXT.is_guardian` in the guardian: initialized to
    `True` by `AppContext(is_guardian=True)` and never cleared there. -/
def guardian_is_guardian : Bool := true

/-- Value of `__APP_CONTEXT.is_guardian` in the executor: cleared at
    executor entry in `__execute_daemon`. -/
def executor_entry_is_guardian : Bool := false

end Main

namespace Daemon

/-- Enum `daemon.DaemonRunStatus` — the status type of the library host
    `start_daemon`; it has exactly these three members. -/
inductive DaemonRunStatus where
  | LAUNCHED
  | ALREADY_RUNNING
  | LAUNCH_FAILED
  deriving DecidableEq, Repr

/-- Outcome of a `daemon.start_daemon` call, as seen by the process that
    made it. -/
inductive HostOutcome where
  | returned (status : DaemonRunStatus) (extra : Option Int)
  | enteredGuardian
  deriving DecidableEq, Repr

/-- Host phase of `daemon.start_daemon`: admission check on the pid-file,
    then `os.fork()`, with the parent returning a status tuple and the
    child continuing as the guardian.  `stdout_filename` and
    `stderr_filename` are only handed to `guardian_main` in the child;
    the host phase performs no open on them.  The effect trace records
    what the calling process did before returning (or before entering
    the guardian). -/
def start_daemon (fs : FS) (pid_filename : String)
    (stdout_filename stderr_filename : String) (forkResult : Int) :
    Except PyError (HostOutcome × List Eff) :=
  let _ := (stdout_filename, stderr_filename)  -- consumed after the fork only
  match Tools.read_int_file fs pid_filename with
  | .error e => .error e
  | .ok (some pid) => .ok (.returned .ALREADY_RUNNING (some pid), [])
  | .ok none =>
    if forkResult < 0 then .ok (.returned .LAUNCH_FAILED none, [.fork])
    else if forkResult > 0 then .ok (.returned .LAUNCHED (some forkResult), [.fork])
    else .ok (.enteredGuardian, [.fork])

/-- How `guardian_main` ends inside the forked child of `start_daemon`. -/
inductive GMainOutcome where
  | returned
  | raisedE
  deriving DecidableEq, Repr

/-- Child branch of `daemon.start_daemon`:
    `try: guardian_main(...); sys.exit(0) finally: safe_remove(pid)` —
    the pid-file is removed on both the normal and the exceptional path. -/
def start_daemon_child_trace (pid_filename : String) (g : GMainOutcome) : List Eff :=
  (match g with
   | .returned => [.exitP 0]
   | .raisedE => [.reraise]) ++ [.removeFile pid_filename]

/-- Model of `daemon.executor_main`'s observable exit: user entry
    resolution and invocation either succeed (`sys.exit(0)`) or raise
    (`sys.exit(1)`); the daemon pid-file is never touched here. -/
def executor_main_trace (entryRaises : Bool) : List Eff :=
  if entryRaises then [.exitP 1] else [.exitP 0]

/-- Model of `daemon.launch_executor_with_retry`: `quit n` is
    `SIG_TERM_HANDLER.quit_requested` at the top of iteration `n`;
    `exitcodes` is the oracle for the successive executor exit codes
    (each `Process.start`/`join` pair succeeding).  Result is `some` of
    the number of executor launches at loop exit. -/
def launch_executor_with_retry (quit : Nat → Bool) (restart_interval : Option Nat) :
    List Int → Nat → Option Nat
  | [], n => if quit n then some n else none
  | c :: rest, n =>
    if quit n then some n
    else if c = 0 then some (n + 1)
    else if restart_interval = none then some (n + 1)
    else launch_executor_with_retry quit restart_interval rest (n + 1)

end Daemon

namespace Worker

/-- Static fields of `worker.WorkerStartInfo` (the argument map and the
    logging configuration are opaque to the supervision logic). -/
structure WorkerStartInfo where
  pid_filename : String
  entry : String
  name : String
  stdout_filename : String
  stderr_filename : String
  deriving DecidableEq, Repr

/-- Everything `worker.start_workers` has done if and when it reaches a
    given point before its supervision loop. -/
structure AdmissionResult where
  returnValue : Option Bool       -- some false: returned False at the duplicate-name check
  sharedFlagCreated : Bool        -- SIG_TERM_HANDLER.worker_controller = Value('b', False) ran
  workerStatesAllocated : Nat     -- WorkerInfo objects built
  spawned : List Int              -- worker children started
  pidFilesWritten : List String   -- worker pid-files created
  deriving DecidableEq, Repr

/-- Preamble of `worker.start_workers`, up to (and excluding) the first
    pass of the supervision loop: the duplicate-name check
    `len(set(names)) < len(names)` either returns `False` with no side
    effects at all, or the worker states and the shared quit flag are
    created and the loop is entered — still with no child spawned and no
    pid-file written. -/
def start_workers_admission (infos : List WorkerStartInfo) : AdmissionResult :=
  let names := infos.map (fun i => i.name)
  if names.dedup.length < names.length then
    { returnValue := some false, sharedFlagCreated := false,
      workerStatesAllocated := 0, spawned := [], pidFilesWritten := [] }
  else
    { returnValue := none, sharedFlagCreated := true,
      workerStatesAllocated := infos.length, spawned := [], pidFilesWritten := [] }

/-- Final wait-all step of `worker.start_workers` (and, identically, of
    `main.run_workers`): `slots` holds each `worker_info.process` (the
    pid of the slot's live child, or `none`), `p` is the pid of the
    process bound to the loop-local variable `p` — the last worker
    spawned.  The source executes `p.join()` once per live slot; the
    result lists the handles actually joined, in order. -/
def final_wait_joins (slots : List (Option Int)) (p : Int) : List Int :=
  slots.foldl (fun acc slot =>
    match slot with
    | none => acc
    | some _ => acc ++ [p]) []

/-- The wait-all step the specification describes: join each slot's own
    process handle.  Modelled from the spec: "On quit: set the shared
    flag, then wait for every live child to exit", joining each slot's
    own handle. -/
def final_wait_joins_spec (slots : List (Option Int)) : List Int :=
  slots.foldl (fun acc slot =>
    match slot with
    | none => acc
    | some q => acc ++ [q]) []

end Worker

/-- Iterate `Tools.handle` (`tools.SigTermHandler.handle`) `n` times from
    state `s`, as when `n` SIGTERMs are delivered back-to-back to one
    process; returns the final state and the total number of SIGTERMs the
    handler itself sent. -/
def Tools.handle_seq (s : Tools.SigTermHandlerState) : Nat → Tools.SigTermHandlerState × Nat
  | 0 => (s, 0)
  | n + 1 =>
    let r := Tools.handle s
    let rest := Tools.handle_seq r.1 n
    (rest.1, r.2.length + rest.2)

/-- Iterate `Main.request_guardian_shutdown` `n` times, counting the
    SIGTERMs sent toward the executor. -/
def Main.guardian_shutdown_seq (c : Main.AppContext) : Nat → Main.AppContext × Nat
  | 0 => (c, 0)
  | n + 1 =>
    let r := Main.request_guardian_shutdown c
    let rest := Main.guardian_shutdown_seq r.1 n
    (rest.1, r.2.length + rest.2)

/-- Iterate `Main.request_executor_shutdown` `n` times, counting the
    SIGTERMs sent toward the guardian. -/
def Main.executor_shutdown_seq (c : Main.AppContext) : Nat → Main.AppContext × Nat
  | 0 => (c, 0)
  | n + 1 =>
    let r := Main.request_executor_shutdown c
    let rest := Main.executor_shutdown_seq r.1 n
    (rest.1, r.2.length + rest.2)

/-- C1.  The claim says the wait-all step joins each slot's own process
    handle; the source joins the loop-local `p` — the last spawned
    worker — once per live slot.  Failing input: two live slots holding
    handles 100 and 200, with `p = 200` (the last spawned).  The code
    joins handle 200 twice and never joins slot 0's handle 100, while the
    spec-described step joins 100 then 200. -/
theorem final_wait_joins_last_spawned_only :
    Worker.final_wait_joins [some 100, some 200] 200 = [200, 200]
    ∧ (100 : Int) ∉ Worker.final_wait_joins [some 100, some 200] 200
    ∧ Worker.final_wait_joins_spec [some 100, some 200] = [100, 200] := by
  refine ⟨rfl, ?_, rfl⟩
  decide

/-- C2.  Failing input: a process in the Worker role whose shared
    controller reads `False`, receiving SIGTERM.  The handler runs (its
    local `quit_requested` attribute becomes `True`: the WORKER branch is
    a `TODO` stub), yet `tools.quit_requested()` — which for a worker
    reads `worker_controller.value`, never set by the handler — still
    returns `False`, contradicting the claim that the quit callback
    subsequently observes the flag. -/
theorem worker_sigterm_quit_not_observed :
    ((Tools.handle { Tools.initSigTermHandler with
        role := some .WORKER, worker_controller := some false }).1.quit_requested = true)
    ∧ Tools.quit_requested_fn (Tools.handle { Tools.initSigTermHandler with
        role := some .WORKER, worker_controller := some false }).1 = some false := by
  decide

/-- C3.  In both guardian supervision loops (`__execute_daemon_with_retry`
    in main.py, followed by `sys.exit(0)`, and `launch_executor_with_retry`
    in daemon.py): an executor exit code of 0 ends the loop after that
    single launch, for every restart interval, and the guardian exits 0;
    a non-zero exit code with restart disabled (`restart_interval = None`)
    also ends the loop after the single launch, with no restart. -/
theorem guardian_loop_stops_on_zero_or_no_restart
    (ri : Option Nat) (rest : List Main.ExecutorStatus) (rest2 : List Int)
    (c : Int) (hc : c ≠ 0) :
    Main.run_daemon_guardian_exit (fun _ => false) ri (.FINISHED 0 :: rest) = some (1, 0)
    ∧ Main.run_daemon_guardian_exit (fun _ => false) none (.FINISHED c :: rest) = some (1, 0)
    ∧ Daemon.launch_executor_with_retry (fun _ => false) ri (0 :: rest2) 0 = some 1
    ∧ Daemon.launch_executor_with_retry (fun _ => false) none (c :: rest2) 0 = some 1 := by
  refine ⟨?_, ?_, ?_, ?_⟩
  · simp [Main.run_daemon_guardian_exit, Main.execute_daemon_with_retry]
  · simp [Main.run_daemon_guardian_exit, Main.execute_daemon_with_retry]
  · simp [Daemon.launch_executor_with_retry]
  · simp [Daemon.launch_executor_with_retry, hc]

/-- Witness for C3 at a concrete instance: restart interval of 5 seconds
    (resp. disabled) and executor exit codes 0 and 1. -/
theorem guardian_loop_stops_on_zero_or_no_restart_witness :
    Main.run_daemon_guardian_exit (fun _ => false) (some 5) [.FINISHED 0] = some (1, 0)
    ∧ Main.run_daemon_guardian_exit (fun _ => false) none [.FINISHED 1] = some (1, 0)
    ∧ Daemon.launch_executor_with_retry (fun _ => false) (some 5) [0] 0 = some 1
    ∧ Daemon.launch_executor_with_retry (fun _ => false) none [1] 0 = some 1 :=
  guardian_loop_stops_on_zero_or_no_restart (some 5) [] [] 1 (by decide)

/-- C4.  The host phase of `daemon.start_daemon`, for every spec whose
    pid-file exists and parses as an integer `p`, returns
    `(ALREADY_RUNNING, p)` with an empty effect trace: no fork, no file
    written, the pid-file untouched. -/
theorem start_daemon_already_running (fs : FS) (pfn content so se : String)
    (p fr : Int) (hf : fs pfn = some content) (hp : Tools.pyInt? content = some p) :
    Daemon.start_daemon fs pfn so se fr =
      .ok (.returned .ALREADY_RUNNING (some p), []) := by
  simp [Daemon.start_daemon, Tools.read_int_file, hf, hp]

/-- Witness for C4: a pid-file holding "12345" and a newline. -/
theorem start_daemon_already_running_witness :
    Daemon.start_daemon (fun s => if s = "d.pid" then some "12345\n" else none)
      "d.pid" "out.log" "err.log" 7 =
      .ok (.returned .ALREADY_RUNNING (some 12345), []) :=
  start_daemon_already_running (fun s => if s = "d.pid" then some "12345\n" else none)
    "d.pid" "12345\n" "out.log" "err.log" 12345 7 (by simp) (by decide)

/-- C5 counterexample.  The library host `daemon.start_daemon`, on a spec
    with stdout target "out.log" and stderr target "err.log" and an
    absent pid-file, forks (trace `[fork]`) without any preceding open of
    the redirection targets, and returns `LAUNCHED` — never a
    redirect-failure status (its status enum has no such member).  This
    falsifies the claim's "opens the stdout, stderr, and null-device
    stdin targets before forking the guardian" for this host. -/
theorem start_daemon_forks_without_opening :
    Daemon.start_daemon (fun _ => none) "d.pid" "out.log" "err.log" 7 =
      .ok (.returned .LAUNCHED (some 7), [Eff.fork])
    ∧ Eff.openW "out.log" ∉ [Eff.fork]
    ∧ Eff.openW "err.log" ∉ [Eff.fork]
    ∧ Eff.openR devnull ∉ [Eff.fork] := by
  refine ⟨?_, by decide, by decide, by decide⟩
  simp [Daemon.start_daemon, Tools.read_int_file]

/-- C5, amended.  The CLI host `main.run_daemon` opens the redirection
    targets before forking and, when opening stdout (resp. stderr) fails,
    returns `REDIR_STDOUT_FAILED` (resp. `REDIR_STDERR_FAILED`) — members
    of main.py's `DaemonRunStatus` — after closing every handle it had
    opened, with no fork and no other side effects; the library host
    `daemon.start_daemon` opens nothing before forking: redirection
    happens in the guardian after the fork and its failures are not
    reported through `start_daemon`'s status type. -/
theorem run_daemon_redirect_failure_behaviour (fs : FS) (openable : String → Bool)
    (pfn so se : String) (fr : Int) :
    (fs pfn = none → openable so = false →
      Main.run_daemon_host fs openable pfn (some so) (some se) fr =
        .ok (.returned .REDIR_STDOUT_FAILED none, []))
    ∧ (fs pfn = none → openable so = true → openable se = false → so ≠ se →
      Main.run_daemon_host fs openable pfn (some so) (some se) fr =
        .ok (.returned .REDIR_STDERR_FAILED none, [.openW so, .closeH so]))
    ∧ (fs pfn = none → 0 < fr →
      Daemon.start_daemon fs pfn so se fr =
        .ok (.returned .LAUNCHED (some fr), [Eff.fork])) := by
  refine ⟨fun hf hso => ?_, fun hf hso hse hne => ?_, fun hf hfr => ?_⟩
  · by_cases heq : so = se
    · subst heq
      simp [Main.run_daemon_host, Tools.read_int_file, hf, Main.open_wb, hso,
        Main.safe_close_io, Main.close_opt]
    · simp [Main.run_daemon_host, Tools.read_int_file, hf, heq, Main.open_wb, hso,
        Main.safe_close_io, Main.close_opt]
  · simp [Main.run_daemon_host, Tools.read_int_file, hf, hne, Main.open_wb, hso, hse,
      Main.safe_close_io, Main.close_opt]
  · have h1 : ¬ fr < 0 := by omega
    simp [Daemon.start_daemon, Tools.read_int_file, hf, h1, hfr]

/-- Witness for the amended C5: a world with no pid-file where "out.log"
    cannot be opened (first conjunct), one where only "err.log" cannot
    be opened (second), and a successful fork returning child pid 7 for
    the library host (third). -/
theorem run_daemon_redirect_failure_behaviour_witness :
    Main.run_daemon_host (fun _ => none) (fun _ => false) "d.pid"
        (some "out.log") (some "err.log") 1 =
      .ok (.returned .REDIR_STDOUT_FAILED none, [])
    ∧ Main.run_daemon_host (fun _ => none) (fun p => p == "out.log") "d.pid"
        (some "out.log") (some "err.log") 1 =
      .ok (.returned .REDIR_STDERR_FAILED none, [.openW "out.log", .closeH "out.log"])
    ∧ Daemon.start_daemon (fun _ => none) "d.pid" "out.log" "err.log" 7 =
      .ok (.returned .LAUNCHED (some 7), [Eff.fork]) :=
  ⟨(run_daemon_redirect_failure_behaviour (fun _ => none) (fun _ => false)
      "d.pid" "out.log" "err.log" 1).1 rfl rfl,
   (run_daemon_redirect_failure_behaviour (fun _ => none) (fun p => p == "out.log")
      "d.pid" "out.log" "err.log" 1).2.1 rfl (by decide) (by decide) (by decide),
   (run_daemon_redirect_failure_behaviour (fun _ => none) (fun _ => false)
      "d.pid" "out.log" "err.log" 7).2.2 rfl (by decide)⟩

/-- C6 counterexample.  With a pid-file containing "not-a-pid", both
    hosts propagate the `ValueError` from `int(f.read())` to their
    caller instead of returning a status tuple. -/
theorem run_daemon_raises_on_unparseable_pid_file :
    Main.run_daemon_host (fun s => if s = "d.pid" then some "not-a-pid" else none)
      (fun _ => true) "d.pid" none none 1 = .error .valueError
    ∧ Daemon.start_daemon (fun s => if s = "d.pid" then some "not-a-pid" else none)
      "d.pid" devnull devnull 1 = .error .valueError :=
  ⟨rfl, rfl⟩

/-- C6, amended.  Whenever the pid-file is absent, or exists with
    contents that parse as an integer, both hosts return a discriminated
    status to the caller (no exception); when the pid-file exists but its
    contents do not parse as an integer, the `ValueError` raised by
    `int()` propagates to the caller (see the counterexample). -/
theorem run_daemon_no_raise_on_parseable_pid_file (fs : FS) (openable : String → Bool)
    (pfn : String) (so se : Option String) (fr : Int)
    (h : ∀ content, fs pfn = some content → (Tools.pyInt? content).isSome) :
    (∃ r, Main.run_daemon_host fs openable pfn so se fr = .ok r)
    ∧ (∃ r, Daemon.start_daemon fs pfn (so.getD devnull) (se.getD devnull) fr = .ok r) := by
  constructor
  · match hfs : fs pfn with
    | some content =>
      obtain ⟨n, hn⟩ := Option.isSome_iff_exists.mp (h content hfs)
      exact ⟨(.returned .ALREADY_RUNNING (some n), []),
        by simp [Main.run_daemon_host, Tools.read_int_file, hfs, hn]⟩
    | none =>
      simp only [Main.run_daemon_host, Tools.read_int_file, hfs]
      repeat' split
      all_goals exact ⟨_, rfl⟩
  · match hfs : fs pfn with
    | some content =>
      obtain ⟨n, hn⟩ := Option.isSome_iff_exists.mp (h content hfs)
      exact ⟨(.returned .ALREADY_RUNNING (some n), []),
        by simp [Daemon.start_daemon, Tools.read_int_file, hfs, hn]⟩
    | none =>
      simp only [Daemon.start_daemon, Tools.read_int_file, hfs]
      repeat' split
      all_goals exact ⟨_, rfl⟩

/-- Witness for the amended C6: an absent pid-file, and a pid-file
    holding "12345" with a newline. -/
theorem run_daemon_no_raise_on_parseable_pid_file_witness :
    ((∃ r, Main.run_daemon_host (fun _ => none) (fun _ => true) "d.pid" none none 1 = .ok r)
      ∧ ∃ r, Daemon.start_daemon (fun _ => none) "d.pid" devnull devnull 1 = .ok r)
    ∧ ((∃ r, Main.run_daemon_host (fun s => if s = "d.pid" then some "12345\n" else none)
          (fun _ => true) "d.pid" none none 1 = .ok r)
      ∧ ∃ r, Daemon.start_daemon (fun s => if s = "d.pid" then some "12345\n" else none)
          "d.pid" devnull devnull 1 = .ok r) :=
  ⟨run_daemon_no_raise_on_parseable_pid_file (fun _ => none) (fun _ => true)
      "d.pid" none none 1 (fun content hc => by simp at hc),
   run_daemon_no_raise_on_parseable_pid_file
      (fun s => if s = "d.pid" then some "12345\n" else none) (fun _ => true)
      "d.pid" none none 1
      (fun content hc => by
        simp at hc
        rw [← hc]
        decide)⟩

/-- C7.  The guardian removes the daemon pid-file on every exit path of
    the supervision frame (normal completion via `sys.exit(0)`, and
    exception), in both implementations; the executor never does: the
    `finally` clause it shares with the guardian in `main.run_daemon` is
    guarded by `is_guardian`, cleared at executor entry, and
    `daemon.executor_main` contains no removal at all. -/
theorem guardian_owns_pid_file_removal :
    (∀ (pfn : String) (b : Main.GuardianBody),
      Eff.removeFile pfn ∈ Main.run_daemon_tail Main.guardian_is_guardian pfn b)
    ∧ (∀ (pfn : String) (b : Main.GuardianBody),
      Eff.removeFile pfn ∉ Main.run_daemon_tail Main.executor_entry_is_guardian pfn b)
    ∧ (∀ (pfn : String) (g : Daemon.GMainOutcome),
      Eff.removeFile pfn ∈ Daemon.start_daemon_child_trace pfn g)
    ∧ (∀ (pfn : String) (r : Bool),
      Eff.removeFile pfn ∉ Daemon.executor_main_trace r) := by
  refine ⟨fun pfn b => ?_, fun pfn b => ?_, fun pfn g => ?_, fun pfn r => ?_⟩
  · cases b <;> simp [Main.run_daemon_tail, Main.guardian_is_guardian]
  · cases b <;> simp [Main.run_daemon_tail, Main.executor_entry_is_guardian]
  · cases g <;> simp [Daemon.start_daemon_child_trace]
  · cases r <;> simp [Daemon.executor_main_trace]

/-- A list with an earlier/later pair of equal elements is not Nodup. -/
theorem not_nodup_of_pair {l : List String} {i j : Nat} (hi : i < l.length)
    (hj : j < l.length) (hij : i < j) (heq : l[i] = l[j]) : ¬ l.Nodup := by
  intro hnd
  have hinj := List.nodup_iff_injective_getElem.mp hnd
  have h2 := @hinj ⟨i, hi⟩ ⟨j, hj⟩ heq
  simp at h2
  omega

/-- A list that is not Nodup strictly shrinks under dedup — this is what
    the Python check `len(set(names)) < len(names)` detects. -/
theorem dedup_length_lt_of_not_nodup {l : List String} (h : ¬ l.Nodup) :
    l.dedup.length < l.length := by
  have hsub := List.dedup_sublist l
  rcases lt_or_eq_of_le hsub.length_le with hlt | hlen
  · exact hlt
  · exact absurd ((hsub.eq_of_length hlen) ▸ List.nodup_dedup l) h

/-- C8.  When two worker specs in the pool share a name,
    `worker.start_workers` returns `False` at its admission check: no
    worker state allocated, no shared quit flag created, no child
    spawned, no worker pid-file written. -/
theorem start_workers_rejects_duplicate_names
    (infos : List Worker.WorkerStartInfo) (i j : Nat)
    (hi : i < infos.length) (hj : j < infos.length) (hij : i < j)
    (hname : infos[i].name = infos[j].name) :
    Worker.start_workers_admission infos =
      { returnValue := some false, sharedFlagCreated := false,
        workerStatesAllocated := 0, spawned := [], pidFilesWritten := [] } := by
  have hi' : i < (infos.map (fun w => w.name)).length := by simpa using hi
  have hj' : j < (infos.map (fun w => w.name)).length := by simpa using hj
  have heq' : (infos.map (fun w => w.name))[i] = (infos.map (fun w => w.name))[j] := by
    simpa using hname
  have hlt := dedup_length_lt_of_not_nodup (not_nodup_of_pair hi' hj' hij heq')
  have hlt' : (infos.map (fun w => w.name)).dedup.length < infos.length := by
    simpa using hlt
  simp [Worker.start_workers_admission, hlt']

/-- Witness for C8: the pool `["x", "x"]` from scenario S4. -/
theorem start_workers_rejects_duplicate_names_witness :
    Worker.start_workers_admission
      [{ pid_filename := "a.pid", entry := "m:f", name := "x",
         stdout_filename := "o", stderr_filename := "e" },
       { pid_filename := "b.pid", entry := "m:f", name := "x",
         stdout_filename := "o", stderr_filename := "e" }] =
      { returnValue := some false, sharedFlagCreated := false,
        workerStatesAllocated := 0, spawned := [], pidFilesWritten := [] } :=
  start_workers_rejects_duplicate_names _ 0 1 (by decide) (by decide) (by decide) rfl

/-- The stepping loop of `tools.sleep` returns within one step of the
    quit flag becoming true: once the flag is monotone and set at `t`,
    the loop never runs past elapsed second `t + 1`. -/
theorem sleep_go_le_of_quit (quit : Nat → Bool) (d t : Nat)
    (hmono : ∀ a b, a ≤ b → quit a = true → quit b = true) (hq : quit t = true) :
    ∀ fuel k, k ≤ t + 1 → Tools.sleep_go quit d fuel k ≤ t + 1 := by
  intro fuel
  induction fuel with
  | zero => intro k hk; simpa [Tools.sleep_go] using hk
  | succ n ih =>
    intro k hk
    by_cases hqk : quit k = true
    · simpa [Tools.sleep_go, hqk] using hk
    · by_cases hdk : d ≤ k
      · simpa [Tools.sleep_go, hqk, hdk] using hk
      · have hkt : k < t := by
          rcases Nat.lt_or_ge k t with h | h
          · exact h
          · exact absurd (hmono t k h hq) (by simpa using hqk)
        simp only [Tools.sleep_go, hqk, hdk, if_false, if_neg]
        exact ih (k + 1) (by omega)

/-- With the quit flag never set, the stepping loop of `tools.sleep`
    returns exactly when the requested duration has elapsed. -/
theorem sleep_go_full_duration (quit : Nat → Bool) (d : Nat)
    (hq : ∀ k, quit k = false) :
    ∀ fuel k, k ≤ d → d < fuel + k → Tools.sleep_go quit d fuel k = d := by
  intro fuel
  induction fuel with
  | zero => intro k hk hlt; omega
  | succ n ih =>
    intro k hk hlt
    by_cases hdk : d ≤ k
    · have : k = d := by omega
      simp [Tools.sleep_go, hq k, hdk, this]
    · simp only [Tools.sleep_go, hq k, hdk, if_false, if_neg]
      exact ih (k + 1) (by omega) (by omega)

/-- The stepping loop of `main.sleep_if`, run with condition
    "quit not yet requested", returns within one step of the quit flag
    becoming true. -/
theorem sleep_if_go_le_of_quit (quit : Nat → Bool) (t : Nat)
    (hmono : ∀ a b, a ≤ b → quit a = true → quit b = true) (hq : quit t = true) :
    ∀ n k, k ≤ t → t < n + k →
      Main.sleep_if_go (fun m => !(quit m)) n k ≤ t + 1 := by
  intro n
  induction n with
  | zero => intro k hk hlt; omega
  | succ n ih =>
    intro k hk hlt
    by_cases hqk : quit k = true
    · simp only [Main.sleep_if_go, hqk, Bool.not_not, Bool.not_false, if_true]
      omega
    · have hkt : k < t := by
        rcases Nat.lt_or_ge k t with h | h
        · exact h
        · exact absurd (hmono t k h hq) (by simpa using hqk)
      simp only [Main.sleep_if_go, hqk, Bool.not_not, Bool.not_true, if_false, if_neg]
      exact ih (k + 1) (by omega) (by omega)

/-- With the quit flag never set, `main.sleep_if`'s loop runs all its
    `n` steps. -/
theorem sleep_if_go_full_duration (cond : Nat → Bool) (hc : ∀ k, cond k = true) :
    ∀ n k, Main.sleep_if_go cond n k = n + k := by
  intro n
  induction n with
  | zero => intro k; simp [Main.sleep_if_go]
  | succ n ih =>
    intro k
    have h1 : Main.sleep_if_go cond (n + 1) k = Main.sleep_if_go cond n (k + 1) := by
      simp [Main.sleep_if_go, hc k]
    rw [h1, ih (k + 1)]
    omega

/-- C9.  Both cooperative sleep primitives (`tools.sleep` with its
    default 1-second step, and `main.sleep_if` with condition "quit not
    requested") poll the quit flag each second: if the monotone quit flag
    becomes true at second `t < d`, the call returns by second `t + 1`;
    if it never becomes true, the call returns exactly when the
    requested `d` seconds have elapsed. -/
theorem cooperative_sleep_latency (quit : Nat → Bool) (d t : Nat)
    (hmono : ∀ a b, a ≤ b → quit a = true → quit b = true) :
    (quit t = true → t < d →
      Tools.sleep_ret quit d ≤ t + 1
      ∧ Main.sleep_if_ret (fun k => !(quit k)) d ≤ t + 1)
    ∧ ((∀ k, quit k = false) →
      Tools.sleep_ret quit d = d
      ∧ Main.sleep_if_ret (fun k => !(quit k)) d = d) := by
  constructor
  · intro hq htd
    constructor
    · exact sleep_go_le_of_quit quit d t hmono hq (d + 1) 0 (by omega)
    · exact sleep_if_go_le_of_quit quit t hmono hq d 0 (by omega) (by omega)
  · intro hq
    constructor
    · exact sleep_go_full_duration quit d hq (d + 1) 0 (by omega) (by omega)
    · have := sleep_if_go_full_duration (fun k => !(quit k)) (fun k => by simp [hq k]) d 0
      simpa [Main.sleep_if_ret] using this

/-- Witness for C9: a flag already set at second 0 with `d = 3` (early
    return by second 1), and a flag never set (full three seconds). -/
theorem cooperative_sleep_latency_witness :
    (Tools.sleep_ret (fun _ => true) 3 ≤ 0 + 1
      ∧ Main.sleep_if_ret (fun k => !((fun _ => true) k)) 3 ≤ 0 + 1)
    ∧ (Tools.sleep_ret (fun _ => false) 3 = 3
      ∧ Main.sleep_if_ret (fun k => !((fun _ => false) k)) 3 = 3) :=
  ⟨(cooperative_sleep_latency (fun _ => true) 3 0
      (fun _ _ _ h => h)).1 rfl (by decide),
   (cooperative_sleep_latency (fun _ => false) 3 0
      (fun _ _ _ h => h)).2 (fun _ => rfl)⟩

/-- Once a guardian's `executor_killed` is set, further SIGTERM
    deliveries to `tools.SigTermHandler.handle` send nothing. -/
theorem handle_seq_guardian_killed :
    ∀ (n : Nat) (s : Tools.SigTermHandlerState), s.role = some .GUARDIAN →
      s.executor_killed = true → (Tools.handle_seq s n).2 = 0 := by
  intro n
  induction n with
  | zero => intro s _ _; rfl
  | succ n ih =>
    intro s hrole hk
    obtain ⟨q, ep, gp, role, wc, gk, ek⟩ := s
    simp only at hrole hk
    subst hrole
    subst hk
    simp only [Tools.handle_seq, Tools.handle, if_true, List.length_nil, Nat.zero_add]
    exact ih _ rfl rfl

/-- Once an executor's `guardian_killed` is set, further SIGTERM
    deliveries to `tools.SigTermHandler.handle` send nothing. -/
theorem handle_seq_executor_killed :
    ∀ (n : Nat) (s : Tools.SigTermHandlerState), s.role = some .EXECUTOR →
      s.guardian_killed = true → (Tools.handle_seq s n).2 = 0 := by
  intro n
  induction n with
  | zero => intro s _ _; rfl
  | succ n ih =>
    intro s hrole hk
    obtain ⟨q, ep, gp, role, wc, gk, ek⟩ := s
    simp only at hrole hk
    subst hrole
    subst hk
    cases wc <;>
      simp only [Tools.handle_seq, Tools.handle, if_true, List.length_nil, Nat.zero_add] <;>
      exact ih _ rfl rfl

/-- In the Worker role (and before any role is set), the handler never
    sends a SIGTERM. -/
theorem handle_seq_other_roles :
    ∀ (n : Nat) (s : Tools.SigTermHandlerState),
      s.role = some .WORKER ∨ s.role = none → (Tools.handle_seq s n).2 = 0 := by
  intro n
  induction n with
  | zero => intro s _; rfl
  | succ n ih =>
    intro s hrole
    obtain ⟨q, ep, gp, role, wc, gk, ek⟩ := s
    rcases hrole with h | h <;> simp only at h <;> subst h <;>
      simp only [Tools.handle_seq, Tools.handle, List.length_nil, Nat.zero_add] <;>
      exact ih _ (by simp)

/-- Any run of back-to-back SIGTERM deliveries to one process's
    `tools.SigTermHandler` sends at most one SIGTERM. -/
theorem handle_seq_le_one (s : Tools.SigTermHandlerState) (n : Nat) :
    (Tools.handle_seq s n).2 ≤ 1 := by
  obtain ⟨q, ep, gp, role, wc, gk, ek⟩ := s
  match role with
  | some .GUARDIAN =>
    cases n with
    | zero => simp [Tools.handle_seq]
    | succ n =>
      cases ek with
      | true =>
        rw [handle_seq_guardian_killed (n + 1) _ rfl rfl]
        omega
      | false =>
        simp only [Tools.handle_seq, Tools.handle, if_false, Bool.false_eq_true,
          ite_false]
        rw [handle_seq_guardian_killed n _ rfl rfl]
        cases ep <;> simp [Tools.safe_kill]
  | some .EXECUTOR =>
    cases n with
    | zero => simp [Tools.handle_seq]
    | succ n =>
      cases gk with
      | true =>
        rw [handle_seq_executor_killed (n + 1) _ rfl rfl]
        omega
      | false =>
        cases wc <;>
          simp only [Tools.handle_seq, Tools.handle, if_false, Bool.false_eq_true,
            ite_false] <;>
          rw [handle_seq_executor_killed n _ rfl rfl] <;>
          cases gp <;> simp [Tools.safe_kill]
  | some .WORKER =>
    rw [handle_seq_other_roles n _ (Or.inl rfl)]
    omega
  | none =>
    rw [handle_seq_other_roles n _ (Or.inr rfl)]
    omega

/-- Once `main.__APP_CONTEXT.executor_killed` is set, or while no
    executor pid is recorded, repeated `__request_guardian_shutdown`
    deliveries send nothing. -/
theorem guardian_shutdown_seq_zero :
    ∀ (n : Nat) (c : Main.AppContext),
      c.executor_killed = true ∨ c.executor_pid = none →
      (Main.guardian_shutdown_seq c n).2 = 0 := by
  intro n
  induction n with
  | zero => intro c _; rfl
  | succ n ih =>
    intro c h
    obtain ⟨q, ep, gp, ig, wc, gk, ek⟩ := c
    rcases h with h | h <;> simp only at h <;> subst h
    · simp only [Main.guardian_shutdown_seq, Main.request_guardian_shutdown,
        Bool.not_true, Bool.false_and, Bool.false_eq_true, ite_false,
        List.length_nil, Nat.zero_add]
      exact ih _ (Or.inl rfl)
    · simp only [Main.guardian_shutdown_seq, Main.request_guardian_shutdown,
        Option.isSome_none, Bool.and_false, Bool.false_eq_true, ite_false,
        List.length_nil, Nat.zero_add]
      exact ih _ (Or.inr rfl)

/-- Once `main.__APP_CONTEXT.guardian_killed` is set, or while no
    guardian pid is recorded, repeated `__request_executor_shutdown`
    deliveries send nothing. -/
theorem executor_shutdown_seq_zero :
    ∀ (n : Nat) (c : Main.AppContext),
      c.guardian_killed = true ∨ c.guardian_pid = none →
      (Main.executor_shutdown_seq c n).2 = 0 := by
  intro n
  induction n with
  | zero => intro c _; rfl
  | succ n ih =>
    intro c h
    obtain ⟨q, ep, gp, ig, wc, gk, ek⟩ := c
    rcases h with h | h <;> simp only at h <;> subst h <;> cases wc
    · simp only [Main.executor_shutdown_seq, Main.request_executor_shutdown,
        Bool.not_true, Bool.false_and, Bool.false_eq_true, ite_false,
        List.length_nil, Nat.zero_add]
      exact ih _ (Or.inl rfl)
    · simp only [Main.executor_shutdown_seq, Main.request_executor_shutdown,
        Bool.not_true, Bool.false_and, Bool.false_eq_true, ite_false,
        List.length_nil, Nat.zero_add]
      exact ih _ (Or.inl rfl)
    · simp only [Main.executor_shutdown_seq, Main.request_executor_shutdown,
        Option.isSome_none, Bool.and_false, Bool.false_eq_true, ite_false,
        List.length_nil, Nat.zero_add]
      exact ih _ (Or.inr rfl)
    · simp only [Main.executor_shutdown_seq, Main.request_executor_shutdown,
        Option.isSome_none, Bool.and_false, Bool.false_eq_true, ite_false,
        List.length_nil, Nat.zero_add]
      exact ih _ (Or.inr rfl)

/-- Any run of back-to-back SIGTERM deliveries to main.py's guardian
    handler sends at most one SIGTERM toward the executor. -/
theorem guardian_shutdown_seq_le_one (c : Main.AppContext) (n : Nat) :
    (Main.guardian_shutdown_seq c n).2 ≤ 1 := by
  obtain ⟨q, ep, gp, ig, wc, gk, ek⟩ := c
  cases n with
  | zero => simp [Main.guardian_shutdown_seq]
  | succ n =>
    cases ek with
    | true =>
      rw [guardian_shutdown_seq_zero (n + 1) _ (Or.inl rfl)]
      omega
    | false =>
      match ep with
      | none =>
        rw [guardian_shutdown_seq_zero (n + 1) _ (Or.inr rfl)]
        omega
      | some p =>
        simp only [Main.guardian_shutdown_seq, Main.request_guardian_shutdown,
          Bool.not_false, Option.isSome_some, Bool.and_true, if_true,
          Tools.safe_kill, List.length_cons, List.length_nil]
        rw [guardian_shutdown_seq_zero n _ (Or.inl rfl)]

/-- Any run of back-to-back SIGTERM deliveries to main.py's executor
    handler sends at most one SIGTERM toward the guardian. -/
theorem executor_shutdown_seq_le_one (c : Main.AppContext) (n : Nat) :
    (Main.executor_shutdown_seq c n).2 ≤ 1 := by
  obtain ⟨q, ep, gp, ig, wc, gk, ek⟩ := c
  cases n with
  | zero => simp [Main.executor_shutdown_seq]
  | succ n =>
    cases gk with
    | true =>
      rw [executor_shutdown_seq_zero (n + 1) _ (Or.inl rfl)]
      omega
    | false =>
      match gp with
      | none =>
        rw [executor_shutdown_seq_zero (n + 1) _ (Or.inr rfl)]
        omega
      | some p =>
        cases wc <;>
          simp only [Main.executor_shutdown_seq, Main.request_executor_shutdown,
            Bool.not_false, Option.isSome_some, Bool.and_true, if_true,
            Tools.safe_kill, List.length_cons, List.length_nil] <;>
          rw [executor_shutdown_seq_zero n _ (Or.inl rfl)]

/-- C10.  Kill-once discipline: from any handler state, a run of `n`
    back-to-back SIGTERM deliveries within one process's lifetime sends
    at most one SIGTERM per direction — the guarding booleans
    (`executor_killed` in the guardian handler, `guardian_killed` in the
    executor handler) are set with the first send, so a re-entered
    handler sends nothing further.  Holds for `tools.SigTermHandler.handle`
    in every role, and for both of main.py's handlers. -/
theorem sigterm_kill_once_per_direction :
    (∀ (s : Tools.SigTermHandlerState) (n : Nat), (Tools.handle_seq s n).2 ≤ 1)
    ∧ (∀ (c : Main.AppContext) (n : Nat), (Main.guardian_shutdown_seq c n).2 ≤ 1)
    ∧ (∀ (c : Main.AppContext) (n : Nat), (Main.executor_shutdown_seq c n).2 ≤ 1) :=
  ⟨handle_seq_le_one, guardian_shutdown_seq_le_one, executor_shutdown_seq_le_one⟩
